import Mathlib

/-!
Verification development for the e-commerce backend authentication and
data-shaping slice (src/main.py, src/schemas.py): JWT token service,
access-control guard, credential hasher, and document codec.

The Python handlers are embedded as pure Lean functions. Framework-level
HTTPException raising becomes an explicit `Except HTTPException` result;
the MongoDB handle becomes explicit state passed to and returned from
each handler. Current time is passed explicitly: epoch seconds (`Nat`)
where the token library consumes it, a calendar `DateTime` where
`datetime.isoformat` formatting matters.
-/

/-- A UTC wall-clock instant as produced by `datetime.now(timezone.utc)`:
calendar fields plus microseconds; the utcoffset is always +00:00. -/
structure DateTime where
  year : Nat
  month : Nat
  day : Nat
  hour : Nat
  minute : Nat
  second : Nat
  microsecond : Nat
deriving DecidableEq, Repr

/-- Decimal rendering of `n`, left-padded with zeros to width `w`. -/
def padTo (w n : Nat) : String :=
  let s := toString n
  String.mk (List.replicate (w - s.length) '0') ++ s

/-- Model of `datetime.isoformat` for an aware UTC datetime:
`YYYY-MM-DDTHH:MM:SS[.ffffff]+00:00` (the fraction is omitted when the
microsecond field is zero, as CPython does). -/
def DateTime.isoformat (d : DateTime) : String :=
  padTo 4 d.year ++ "-" ++ padTo 2 d.month ++ "-" ++ padTo 2 d.day ++ "T" ++
  padTo 2 d.hour ++ ":" ++ padTo 2 d.minute ++ ":" ++ padTo 2 d.second ++
  (if d.microsecond = 0 then "" else "." ++ padTo 6 d.microsecond) ++ "+00:00"

/-- A BSON-like document value. `oid` is a `bson.ObjectId` carried by its
hex string, `dt` a stored datetime. Numeric payloads are carried as `Int`
and nested list/mapping payloads in flattened form: no handler in this
slice computes on them, they only pass through the codec opaquely. -/
inductive BVal where
  | oid (s : String)
  | dt (d : DateTime)
  | str (s : String)
  | int (n : Int)
  | bool (b : Bool)
  | strList (l : List String)
  | dict (l : List (String × String))
deriving DecidableEq, Repr

/-- A Python dict with string keys, in insertion order. Keys are unique
(Python dicts cannot hold duplicate keys). -/
abbrev Dict := List (String × BVal)

/-- Model of `doc.get(k)`: value at the first (only) entry for key `k`. -/
def dictGet : Dict → String → Option BVal
  | [], _ => none
  | p :: rest, k => if p.1 = k then some p.2 else dictGet rest k

/-- Model of `k in doc`. -/
def dictHasKey : Dict → String → Bool
  | [], _ => false
  | p :: rest, k => decide (p.1 = k) || dictHasKey rest k

/-- Model of `doc[k] = v`: update the entry in place when the key exists,
otherwise append it at the end (Python insertion-order semantics). -/
def dictSet (d : Dict) (k : String) (v : BVal) : Dict :=
  if dictHasKey d k then d.map (fun p => if p.1 = k then (k, v) else p)
  else d ++ [(k, v)]

/-- Model of `del doc[k]`: drop the entry for `k` (all of them; keys are unique). -/
def dictDel : Dict → String → Dict
  | [], _ => []
  | p :: rest, k => if p.1 = k then dictDel rest k else p :: dictDel rest k

/-- The per-value action of the datetime conversion loop in
`serialize_doc`: a datetime becomes its ISO string, all else is kept. -/
def serializeVal (v : BVal) : BVal :=
  match v with
  | BVal.dt t => BVal.str t.isoformat
  | w => w

/-- Model of `serialize_doc` from src/main.py. `None` (and, vacuously, the empty
dict: `if not doc`) is returned unchanged; an `ObjectId`-valued `_id` is
re-exposed as a string `id` field (set then deleted, so `id` lands at the
end when it is fresh); afterwards every datetime value is replaced by its
isoformat string. -/
def serialize_doc (doc : Option Dict) : Option Dict :=
  match doc with
  | none => none
  | some d =>
    if d = [] then some d
    else
      let d1 :=
        match dictGet d "_id" with
        | some (BVal.oid s) => dictDel (dictSet d "id" (BVal.str s)) "_id"
        | _ => d
      some (d1.map (fun p => (p.1, serializeVal p.2)))

/- ----------------------- Token service ----------------------- -/

/-- Model of `os.getenv("JWT_SECRET", "devsecret")`: process-wide signing key,
read once at startup; modelled as its default value. -/
def JWT_SECRET : String := "devsecret"

/-- A JWS algorithm name as passed to PyJWT. -/
inductive JwtAlg where
  | HS256
  | other (name : String)
deriving DecidableEq, Repr

def JWT_ALGO : JwtAlg := JwtAlg.HS256

/-- The claims `create_token` is called with at signup/login. -/
structure TokenClaims where
  id : String
  email : String
  is_admin : Bool
deriving DecidableEq, Repr

/-- A decoded JWT payload: the claims plus the registered `exp` claim
(epoch seconds) when present. A payload whose `id` entry is missing or
`None` is modelled by `id = ""`: both are falsy, and the only consumer
(`get_current_user`) tests `if not user_id`. -/
structure TokenPayload where
  id : String
  email : String
  is_admin : Bool
  exp : Option Nat
deriving DecidableEq, Repr

/-- A token string as seen by PyJWT: either a well-formed three-part
signed token, remembering the payload it carries and the key and
algorithm it was signed with, or a string that does not parse as a JWT
at all. The HMAC signature is modelled by the key/algorithm pair:
verification succeeds exactly when both match the verifier. -/
inductive Token where
  | signed (payload : TokenPayload) (key : String) (alg : JwtAlg)
  | malformed (raw : String)
deriving DecidableEq, Repr

/-- PyJWT failure kinds relevant here. `ExpiredSignatureError` is raised
by the exp check; every other decode failure (bad structure, bad
signature, algorithm not in the allow-list) is an `InvalidTokenError`. -/
inductive JwtError where
  | ExpiredSignatureError
  | InvalidTokenError
deriving DecidableEq, Repr

/-- Model of `jwt.encode(payload, key, algorithm)`: sign the payload. -/
def jwt_encode (payload : TokenPayload) (key : String) (alg : JwtAlg) : Token :=
  Token.signed payload key alg

/-- Model of `jwt.decode(token, key, algorithms)` at current time `now` (epoch
seconds): structure, signature and algorithm are checked first
(`InvalidTokenError` on failure); only then is the `exp` claim validated
when present (`ExpiredSignatureError` when `exp < now`, PyJWT with zero
leeway). -/
def jwt_decode (t : Token) (key : String) (algos : List JwtAlg) (now : Nat) :
    Except JwtError TokenPayload :=
  match t with
  | Token.malformed _ => Except.error JwtError.InvalidTokenError
  | Token.signed p k a =>
    if k = key ∧ a ∈ algos then
      match p.exp with
      | none => Except.ok p
      | some e =>
        if e < now then Except.error JwtError.ExpiredSignatureError
        else Except.ok p
    else Except.error JwtError.InvalidTokenError

/-- Model of `fastapi.HTTPException(status_code, detail)` carried as a value. -/
structure HTTPException where
  status_code : Nat
  detail : String
deriving DecidableEq, Repr

/-- Model of `create_token` from src/main.py: embed the claims plus
`exp = now + timedelta(days=7)` and sign with the process key. -/
def create_token (payload : TokenClaims) (now : Nat) : Token :=
  jwt_encode
    { id := payload.id
      email := payload.email
      is_admin := payload.is_admin
      exp := some (now + 7 * 24 * 60 * 60) }
    JWT_SECRET JWT_ALGO

/-- Model of `decode_token` from src/main.py: decode, mapping
`ExpiredSignatureError` to 401 "Token expired" and `InvalidTokenError`
to 401 "Invalid token". -/
def decode_token (t : Token) (now : Nat) : Except HTTPException TokenPayload :=
  match jwt_decode t JWT_SECRET [JWT_ALGO] now with
  | Except.ok p => Except.ok p
  | Except.error JwtError.ExpiredSignatureError =>
      Except.error { status_code := 401, detail := "Token expired" }
  | Except.error JwtError.InvalidTokenError =>
      Except.error { status_code := 401, detail := "Invalid token" }

example :
    decode_token (create_token { id := "u1", email := "a@b.com", is_admin := false } 0) 100 =
      Except.ok { id := "u1", email := "a@b.com", is_admin := false, exp := some 604800 } := rfl

example :
    decode_token (create_token { id := "u1", email := "a@b.com", is_admin := false } 0) 604801 =
      Except.error { status_code := 401, detail := "Token expired" } := rfl

/- ----------------------- Credential hasher ----------------------- -/

/-- Truncation to a 32-bit word. -/
def w32 (n : Nat) : Nat := n % 4294967296

/-- A 32-bit right rotation. -/
def rotr32 (r x : Nat) : Nat := w32 ((x >>> r) ||| (x <<< (32 - r)))

/-- The 64 SHA-256 round constants. -/
def sha256K : List Nat :=
  [1116352408, 1899447441, 3049323471, 3921009573,
   961987163, 1508970993, 2453635748, 2870763221,
   3624381080, 310598401, 607225278, 1426881987,
   1925078388, 2162078206, 2614888103, 3248222580,
   3835390401, 4022224774, 264347078, 604807628,
   770255983, 1249150122, 1555081692, 1996064986,
   2554220882, 2821834349, 2952996808, 3210313671,
   3336571891, 3584528711, 113926993, 338241895,
   666307205, 773529912, 1294757372, 1396182291,
   1695183700, 1986661051, 2177026350, 2456956037,
   2730485921, 2820302411, 3259730800, 3345764771,
   3516065817, 3600352804, 4094571909, 275423344,
   430227734, 506948616, 659060556, 883997877,
   958139571, 1322822218, 1537002063, 1747873779,
   1955562222, 2024104815, 2227730452, 2361852424,
   2428436474, 2756734187, 3204031479, 3329325298]

/-- The eight 32-bit hash state words. -/
structure Sha8 where
  h0 : Nat
  h1 : Nat
  h2 : Nat
  h3 : Nat
  h4 : Nat
  h5 : Nat
  h6 : Nat
  h7 : Nat
deriving DecidableEq, Repr

/-- SHA-256 initial hash value. -/
def sha256Init : Sha8 :=
  ⟨0x6a09e667, 0xbb67ae85, 0x3c6ef372, 0xa54ff53a, 0x510e527f, 0x9b05688c, 0x1f83d9ab, 0x5be0cd19⟩

/-- The eight working registers of the compression loop. -/
structure Regs where
  a : Nat
  b : Nat
  c : Nat
  d : Nat
  e : Nat
  f : Nat
  g : Nat
  h : Nat
deriving DecidableEq, Repr

/-- Four big-endian bytes to a word. -/
def bytesToWordBE (b0 b1 b2 b3 : Nat) : Nat :=
  (b0 <<< 24) ||| (b1 <<< 16) ||| (b2 <<< 8) ||| b3

/-- Group a byte list into big-endian 32-bit words. -/
def chunkWords : List Nat → List Nat
  | b0 :: b1 :: b2 :: b3 :: rest => bytesToWordBE b0 b1 b2 b3 :: chunkWords rest
  | _ => []

/-- Extend the 16 chunk words to the 64-entry message schedule. All
indices touched are in range; `getD` never takes its default. -/
def extendSchedule (w0 : Array Nat) : Array Nat :=
  (List.range 48).foldl
    (fun w i =>
      let j := i + 16
      let x15 := w.getD (j - 15) 0
      let x2 := w.getD (j - 2) 0
      let s0 := rotr32 7 x15 ^^^ rotr32 18 x15 ^^^ (x15 >>> 3)
      let s1 := rotr32 17 x2 ^^^ rotr32 19 x2 ^^^ (x2 >>> 10)
      w.push (w32 (w.getD (j - 16) 0 + s0 + w.getD (j - 7) 0 + s1)))
    w0

/-- One SHA-256 compression round. Register values stay below 2^32, so
XOR against the all-ones word is bitwise complement. -/
def sha256Round (r : Regs) (k : Nat) (w : Nat) : Regs :=
  let S1 := rotr32 6 r.e ^^^ rotr32 11 r.e ^^^ rotr32 25 r.e
  let ch := (r.e &&& r.f) ^^^ ((r.e ^^^ 0xffffffff) &&& r.g)
  let temp1 := w32 (r.h + S1 + ch + k + w)
  let S0 := rotr32 2 r.a ^^^ rotr32 13 r.a ^^^ rotr32 22 r.a
  let maj := (r.a &&& r.b) ^^^ (r.a &&& r.c) ^^^ (r.b &&& r.c)
  let temp2 := w32 (S0 + maj)
  ⟨w32 (temp1 + temp2), r.a, r.b, r.c, w32 (r.d + temp1), r.e, r.f, r.g⟩

/-- Fold the hash state with the compressed registers. -/
def sha256Finalize (s : Sha8) (r : Regs) : Sha8 :=
  ⟨w32 (s.h0 + r.a), w32 (s.h1 + r.b), w32 (s.h2 + r.c), w32 (s.h3 + r.d),
   w32 (s.h4 + r.e), w32 (s.h5 + r.f), w32 (s.h6 + r.g), w32 (s.h7 + r.h)⟩

/-- Process one 64-byte chunk. -/
def processChunk (s : Sha8) (chunk : List Nat) : Sha8 :=
  let ws := extendSchedule (Array.mk (chunkWords chunk))
  let r :=
    (List.range 64).foldl
      (fun r i => sha256Round r (sha256K.getD i 0) (ws.getD i 0))
      ⟨s.h0, s.h1, s.h2, s.h3, s.h4, s.h5, s.h6, s.h7⟩
  sha256Finalize s r

/-- Big-endian 8-byte encoding of the bit length. -/
def toBytesBE8 (n : Nat) : List Nat :=
  [(n >>> 56) % 256, (n >>> 48) % 256, (n >>> 40) % 256, (n >>> 32) % 256,
   (n >>> 24) % 256, (n >>> 16) % 256, (n >>> 8) % 256, n % 256]

/-- SHA-256 padding: a 0x80 byte, zeros up to 56 mod 64, then the bit
length in 8 big-endian bytes. -/
def padMessage (msg : List Nat) : List Nat :=
  let z := (120 - ((msg.length + 1) % 64)) % 64
  msg ++ [128] ++ List.replicate z 0 ++ toBytesBE8 (8 * msg.length)

/-- Split into 64-byte chunks. -/
def toChunks (l : List Nat) : List (List Nat) :=
  if h : l = [] then [] else l.take 64 :: toChunks (l.drop 64)
termination_by l.length
decreasing_by
  have hp : 0 < l.length := List.length_pos.mpr h
  simp only [List.length_drop]
  omega

/-- SHA-256 of a byte list, as the eight state words. -/
def sha256Words (msg : List Nat) : Sha8 :=
  (toChunks (padMessage msg)).foldl processChunk sha256Init

def hexChars : List Char :=
  String.toList "0123456789abcdef"

/-- Lowercase hex rendering of one 32-bit word, 8 characters. -/
def wordHex (w : Nat) : String :=
  String.mk ((List.range 8).map (fun i => hexChars.getD ((w >>> (28 - 4 * i)) % 16) '0'))

/-- Model of `hexdigest()`: 64 lowercase hex characters. -/
def sha8Hex (s : Sha8) : String :=
  wordHex s.h0 ++ wordHex s.h1 ++ wordHex s.h2 ++ wordHex s.h3 ++
  wordHex s.h4 ++ wordHex s.h5 ++ wordHex s.h6 ++ wordHex s.h7

/-- Model of `password.encode()`: the UTF-8 bytes of the string. -/
def strBytes (s : String) : List Nat :=
  s.toUTF8.toList.map (fun b => b.toNat)

/-- Model of `hash_password` from src/main.py:
`hashlib.sha256(password.encode()).hexdigest()`. -/
def hash_password (password : String) : String :=
  sha8Hex (sha256Words (strBytes password))

/- ----------------------- Schemas (src/schemas.py) ----------------------- -/

inductive Category where
  | Mobiles
  | Laptops
  | Accessories
  | Fashion
deriving DecidableEq, Repr

def categoryStr : Category → String
  | Category.Mobiles => "Mobiles"
  | Category.Laptops => "Laptops"
  | Category.Accessories => "Accessories"
  | Category.Fashion => "Fashion"

inductive PaymentMethod where
  | COD
  | Card
  | UPI
deriving DecidableEq, Repr

inductive OrderStatus where
  | placed
  | processing
  | shipped
  | delivered
deriving DecidableEq, Repr

/-- Model of `schemas.User`. -/
structure UserSchema where
  name : String
  email : String
  password_hash : String
  is_admin : Bool
deriving DecidableEq, Repr

/-- Model of `schemas.Product`. Float-typed price/rating are carried as `Int`:
no handler in this slice computes on them, they only pass through. -/
structure Product where
  name : String
  brand : String
  description : String
  price : Int
  category : Category
  rating : Int
  images : List String
  specs : List (String × String)
  stock : Int
deriving DecidableEq, Repr

/-- Model of `schemas.OrderItem`. -/
structure OrderItem where
  product_id : String
  name : String
  price : Int
  quantity : Int
  image : Option String
deriving DecidableEq, Repr

/-- Model of `schemas.Order`. -/
structure Order where
  user_id : String
  items : List OrderItem
  total : Int
  name : String
  address : String
  phone : String
  payment_method : PaymentMethod
  status : OrderStatus
deriving DecidableEq, Repr

/- ----------------------- Request bodies (src/main.py) ----------------------- -/

structure SignupBody where
  name : String
  email : String
  password : String
deriving DecidableEq, Repr

structure LoginBody where
  email : String
  password : String
deriving DecidableEq, Repr

/-- Model of `ProductCreateBody(ProductSchema)`. -/
abbrev ProductCreateBody := Product

/-- Model of `ProductUpdateBody`: every field optional, defaulting to `None`
(`category` is a plain optional string here, unlike the schema). -/
structure ProductUpdateBody where
  name : Option String
  brand : Option String
  description : Option String
  price : Option Int
  category : Option String
  rating : Option Int
  images : Option (List String)
  specs : Option (List (String × String))
  stock : Option Int
deriving DecidableEq, Repr

/-- Model of `OrderCreateBody(OrderSchema)`. -/
abbrev OrderCreateBody := Order

/- ----------------------- Storage ----------------------- -/

/-- A stored user document: the schema fields plus the storage-assigned
ObjectId, carried as its (never empty) string form. -/
structure UserDoc where
  _id : String
  name : String
  email : String
  password_hash : String
  is_admin : Bool
deriving DecidableEq, Repr

/-- The document database. User documents are kept structured (the auth
code reads their fields); product documents are kept as raw dicts (the
update path applies a sparse `$set` to them); orders are kept as records
with their assigned identifier. `nextId` feeds the fresh-ObjectId
source of the storage collaborator model. -/
structure DB where
  users : List UserDoc
  products : List Dict
  orders : List (String × Order)
  nextId : Nat
deriving DecidableEq, Repr

/-- Modelled from the spec: the storage collaborator of §9 assigns an
opaque identifier to each created document. Fresh ids are drawn from a
counter and are never the empty string. -/
def freshId (db : DB) : String :=
  "oid" ++ toString db.nextId

/-- A user document as `serialize_doc` returns it: `_id` renamed to a
string `id`, every other field kept (the password hash included). -/
structure Identity where
  name : String
  email : String
  password_hash : String
  is_admin : Bool
  id : String
deriving DecidableEq, Repr

def UserDoc.serialize (u : UserDoc) : Identity :=
  ⟨u.name, u.email, u.password_hash, u.is_admin, u._id⟩

/-- The dict form of a stored user document. -/
def UserDoc.toDoc (u : UserDoc) : Dict :=
  [("_id", BVal.oid u._id), ("name", BVal.str u.name), ("email", BVal.str u.email),
   ("password_hash", BVal.str u.password_hash), ("is_admin", BVal.bool u.is_admin)]

/-- The dict form of a stored product document. -/
def Product.toDoc (id : String) (p : Product) : Dict :=
  [("_id", BVal.oid id), ("name", BVal.str p.name), ("brand", BVal.str p.brand),
   ("description", BVal.str p.description), ("price", BVal.int p.price),
   ("category", BVal.str (categoryStr p.category)), ("rating", BVal.int p.rating),
   ("images", BVal.strList p.images), ("specs", BVal.dict p.specs),
   ("stock", BVal.int p.stock)]

/-- Modelled from the spec: `create_document("user", u)` from database.py
(not under src/) inserts the record and returns the assigned id. -/
def create_document_user (db : DB) (u : UserSchema) : String × DB :=
  let uid := freshId db
  (uid, { db with
            users := db.users ++ [⟨uid, u.name, u.email, u.password_hash, u.is_admin⟩]
            nextId := db.nextId + 1 })

/-- Modelled from the spec: `create_document("product", p)`. -/
def create_document_product (db : DB) (p : Product) : String × DB :=
  let pid := freshId db
  (pid, { db with
            products := db.products ++ [Product.toDoc pid p]
            nextId := db.nextId + 1 })

/-- Modelled from the spec: `create_document("order", o)`. -/
def create_document_order (db : DB) (o : Order) : String × DB :=
  let newId := freshId db
  (newId, { db with
              orders := db.orders ++ [(newId, o)]
              nextId := db.nextId + 1 })

/-- Does this product document carry the given ObjectId. -/
def productMatches (pid : String) (d : Dict) : Bool :=
  dictGet d "_id" == some (BVal.oid pid)

/-- Apply a `$set` mapping to one document. -/
def applySet (d : Dict) (upd : Dict) : Dict :=
  upd.foldl (fun acc kv => dictSet acc kv.1 kv.2) d

/-- Model of `update_one({"_id": pid}, {"$set": upd})`: apply to the first match,
return `matched_count` and the new collection. -/
def updateOne (l : List Dict) (pid : String) (upd : Dict) : Nat × List Dict :=
  match l with
  | [] => (0, [])
  | d :: rest =>
    if productMatches pid d then (1, applySet d upd :: rest)
    else
      let r := updateOne rest pid upd
      (r.1, d :: r.2)

/-- Model of `delete_one({"_id": pid})`: remove the first match, return
`deleted_count` and the new collection. -/
def deleteOne (l : List Dict) (pid : String) : Nat × List Dict :=
  match l with
  | [] => (0, [])
  | d :: rest =>
    if productMatches pid d then (1, rest)
    else
      let r := deleteOne rest pid
      (r.1, d :: r.2)

/- ----------------------- Access-control guard ----------------------- -/

/-- Model of `get_current_user` from src/main.py: decode the bearer token, read
the id claim (401 when falsy), look the user up by its ObjectId (the
`ObjectId(user_id)` round-trip is modelled as identity on the opaque id
string), 401 when no such user exists, else the serialized user. -/
def get_current_user (token : Token) (db : DB) (now : Nat) :
    Except HTTPException Identity :=
  match decode_token token now with
  | Except.error e => Except.error e
  | Except.ok payload =>
    if payload.id = "" then
      Except.error { status_code := 401, detail := "Invalid token payload" }
    else
      match db.users.find? (fun u => u._id == payload.id) with
      | none => Except.error { status_code := 401, detail := "User not found" }
      | some u => Except.ok u.serialize

/- ----------------------- Handlers (src/main.py) ----------------------- -/

/-- The body of the JSON returned by signup and login:
a token plus the public user fields. -/
structure AuthResponse where
  token : Token
  user_id : String
  user_name : String
  user_email : String
  user_is_admin : Bool
deriving DecidableEq, Repr

/-- Model of `signup` from src/main.py: 400 when the email is taken, otherwise
store the user with the hashed password and `is_admin=False` and issue a
token for it. -/
def signup (body : SignupBody) (db : DB) (now : Nat) :
    Except HTTPException AuthResponse × DB :=
  if (db.users.find? (fun u => u.email == body.email)).isSome then
    (Except.error { status_code := 400, detail := "Email already registered" }, db)
  else
    let user : UserSchema :=
      { name := body.name
        email := body.email
        password_hash := hash_password body.password
        is_admin := false }
    let r := create_document_user db user
    let token := create_token { id := r.1, email := body.email, is_admin := false } now
    (Except.ok ⟨token, r.1, body.name, body.email, false⟩, r.2)

/-- Model of `login` from src/main.py: 401 when no user carries the email or the
re-hashed password differs from the stored hash; otherwise issue a token
from the serialized user document. -/
def login (body : LoginBody) (db : DB) (now : Nat) :
    Except HTTPException AuthResponse :=
  match db.users.find? (fun u => u.email == body.email) with
  | none => Except.error { status_code := 401, detail := "Invalid credentials" }
  | some user =>
    if user.password_hash ≠ hash_password body.password then
      Except.error { status_code := 401, detail := "Invalid credentials" }
    else
      let suser := user.serialize
      let token := create_token { id := suser.id, email := suser.email, is_admin := suser.is_admin } now
      Except.ok ⟨token, suser.id, suser.name, suser.email, suser.is_admin⟩

/-- Model of `create_product` from src/main.py: admin-gated insert. -/
def create_product (body : ProductCreateBody) (user : Identity) (db : DB) :
    Except HTTPException String × DB :=
  if user.is_admin = false then
    (Except.error { status_code := 403, detail := "Admin only" }, db)
  else
    let r := create_document_product db body
    (Except.ok r.1, r.2)

/-- The sparse `$set` mapping built by `update_product`:
`body.model_dump(exclude_none=True)` keeps exactly the fields whose
value is not `None`, in declaration order, and `updated_at` is then
appended. -/
def optEntry {α : Type} (k : String) (f : α → BVal) (o : Option α) : Dict :=
  match o with
  | none => []
  | some v => [(k, f v)]

def ProductUpdateBody.dumpExcludeNone (b : ProductUpdateBody) : Dict :=
  optEntry "name" BVal.str b.name ++ optEntry "brand" BVal.str b.brand ++
  optEntry "description" BVal.str b.description ++ optEntry "price" BVal.int b.price ++
  optEntry "category" BVal.str b.category ++ optEntry "rating" BVal.int b.rating ++
  optEntry "images" BVal.strList b.images ++ optEntry "specs" BVal.dict b.specs ++
  optEntry "stock" BVal.int b.stock

def update_product_set (b : ProductUpdateBody) (now : DateTime) : Dict :=
  ProductUpdateBody.dumpExcludeNone b ++ [("updated_at", BVal.dt now)]

/-- Model of `update_product` from src/main.py: admin-gated sparse update; 404
when no product matched. -/
def update_product (product_id : String) (body : ProductUpdateBody) (user : Identity)
    (db : DB) (now : DateTime) : Except HTTPException Unit × DB :=
  if user.is_admin = false then
    (Except.error { status_code := 403, detail := "Admin only" }, db)
  else
    let upd := update_product_set body now
    let r := updateOne db.products product_id upd
    let db2 := { db with products := r.2 }
    if r.1 = 0 then
      (Except.error { status_code := 404, detail := "Product not found" }, db2)
    else (Except.ok (), db2)

/-- Model of `delete_product` from src/main.py: admin-gated delete; 404 when no
product matched. -/
def delete_product (product_id : String) (user : Identity) (db : DB) :
    Except HTTPException Unit × DB :=
  if user.is_admin = false then
    (Except.error { status_code := 403, detail := "Admin only" }, db)
  else
    let r := deleteOne db.products product_id
    let db2 := { db with products := r.2 }
    if r.1 = 0 then
      (Except.error { status_code := 404, detail := "Product not found" }, db2)
    else (Except.ok (), db2)

/-- Model of `create_order` from src/main.py: allowed only for the order owner or
an admin; inserts the order document on success. -/
def create_order (body : OrderCreateBody) (user : Identity) (db : DB) :
    Except HTTPException String × DB :=
  if user.id ≠ body.user_id ∧ user.is_admin = false then
    (Except.error { status_code := 403, detail := "Not allowed" }, db)
  else
    let r := create_document_order db body
    (Except.ok r.1, r.2)

/-- Model of `admin_stats` from src/main.py: admin-gated collection counts. -/
def admin_stats (user : Identity) (db : DB) :
    Except HTTPException (Nat × Nat × Nat) :=
  if user.is_admin = false then
    Except.error { status_code := 403, detail := "Admin only" }
  else
    Except.ok (db.users.length, db.products.length, db.orders.length)

/- ----------------------- Claim theorems ----------------------- -/

/-- C1: token verification follows the spec taxonomy. A malformed token,
or one signed with a different key or algorithm, fails as 401 "Invalid
token"; a correctly signed token whose embedded expiry is exceeded by
the current time fails as 401 "Token expired"; otherwise verification
succeeds and returns the embedded payload unchanged. -/
theorem decode_token_taxonomy :
    (∀ raw now, decode_token (Token.malformed raw) now =
        Except.error { status_code := 401, detail := "Invalid token" }) ∧
    (∀ p k a now, (k ≠ JWT_SECRET ∨ a ≠ JwtAlg.HS256) →
        decode_token (Token.signed p k a) now =
          Except.error { status_code := 401, detail := "Invalid token" }) ∧
    (∀ p e now, p.exp = some e → e < now →
        decode_token (Token.signed p JWT_SECRET JwtAlg.HS256) now =
          Except.error { status_code := 401, detail := "Token expired" }) ∧
    (∀ p e now, p.exp = some e → ¬ e < now →
        decode_token (Token.signed p JWT_SECRET JwtAlg.HS256) now = Except.ok p) ∧
    (∀ p now, p.exp = none →
        decode_token (Token.signed p JWT_SECRET JwtAlg.HS256) now = Except.ok p) := by
  refine ⟨fun raw now => rfl, ?_, ?_, ?_, ?_⟩
  · intro p k a now hka
    have hd : jwt_decode (Token.signed p k a) JWT_SECRET [JWT_ALGO] now =
        Except.error JwtError.InvalidTokenError := by
      simp only [jwt_decode]
      rw [if_neg]
      rintro ⟨hk, ha⟩
      simp only [JWT_ALGO, List.mem_singleton] at ha
      rcases hka with h | h
      · exact h hk
      · exact h ha
    simp [decode_token, hd]
  · intro p e now hexp hlt
    have hd : jwt_decode (Token.signed p JWT_SECRET JwtAlg.HS256) JWT_SECRET [JWT_ALGO] now =
        Except.error JwtError.ExpiredSignatureError := by
      simp [jwt_decode, JWT_ALGO, hexp, hlt]
    simp [decode_token, hd]
  · intro p e now hexp hlt
    have hd : jwt_decode (Token.signed p JWT_SECRET JwtAlg.HS256) JWT_SECRET [JWT_ALGO] now =
        Except.ok p := by
      simp [jwt_decode, JWT_ALGO, hexp, hlt]
    simp [decode_token, hd]
  · intro p now hexp
    have hd : jwt_decode (Token.signed p JWT_SECRET JwtAlg.HS256) JWT_SECRET [JWT_ALGO] now =
        Except.ok p := by
      simp [jwt_decode, JWT_ALGO, hexp]
    simp [decode_token, hd]

/-- Concrete instantiation of the C1 theorem. -/
theorem decode_token_taxonomy_witness :
    decode_token (Token.signed ⟨"u1", "a@b.com", false, some 10⟩ "otherkey" JwtAlg.HS256) 0 =
        Except.error { status_code := 401, detail := "Invalid token" } ∧
    decode_token (Token.signed ⟨"u1", "a@b.com", false, some 10⟩ JWT_SECRET JwtAlg.HS256) 11 =
        Except.error { status_code := 401, detail := "Token expired" } ∧
    decode_token (Token.signed ⟨"u1", "a@b.com", false, some 10⟩ JWT_SECRET JwtAlg.HS256) 10 =
        Except.ok ⟨"u1", "a@b.com", false, some 10⟩ :=
  ⟨decode_token_taxonomy.2.1 _ "otherkey" JwtAlg.HS256 0 (Or.inl (by decide)),
   decode_token_taxonomy.2.2.1 _ 10 11 rfl (by decide),
   decode_token_taxonomy.2.2.2.1 _ 10 10 rfl (by decide)⟩

/-- C2: verifying a token produced by `create_token` strictly less than
7 days after issuance succeeds and returns the identifier, email and
admin flag of the input claims unchanged. -/
theorem verify_issue_roundtrip (c : TokenClaims) (tIssue tVerify : Nat)
    (h : tVerify < tIssue + 7 * 24 * 60 * 60) :
    ∃ p, decode_token (create_token c tIssue) tVerify = Except.ok p ∧
      p.id = c.id ∧ p.email = c.email ∧ p.is_admin = c.is_admin := by
  refine ⟨{ id := c.id, email := c.email, is_admin := c.is_admin,
            exp := some (tIssue + 7 * 24 * 60 * 60) }, ?_, rfl, rfl, rfl⟩
  have hlt : ¬ (tIssue + 7 * 24 * 60 * 60 < tVerify) := by omega
  simp [create_token, jwt_encode, decode_token, jwt_decode, JWT_ALGO, hlt]

/-- Concrete instantiation of the C2 theorem. -/
theorem verify_issue_roundtrip_witness :
    ∃ p, decode_token (create_token ⟨"u1", "a@b.com", true⟩ 0) 604799 = Except.ok p ∧
      p.id = "u1" ∧ p.email = "a@b.com" ∧ p.is_admin = true :=
  verify_issue_roundtrip ⟨"u1", "a@b.com", true⟩ 0 604799 (by decide)

/-- C3: each admin-gated operation (create/update/delete product, admin
stats) fails with 403 "Admin only" when the admin flag of the identity
is false, and never produces a 403 failure when it is true. -/
theorem admin_gates :
    (∀ (user : Identity) (body : ProductCreateBody) (db : DB),
       (user.is_admin = false →
          create_product body user db =
            (Except.error { status_code := 403, detail := "Admin only" }, db)) ∧
       (user.is_admin = true →
          ∀ e, (create_product body user db).1 = Except.error e → e.status_code ≠ 403)) ∧
    (∀ (user : Identity) (pid : String) (body : ProductUpdateBody) (db : DB) (now : DateTime),
       (user.is_admin = false →
          update_product pid body user db now =
            (Except.error { status_code := 403, detail := "Admin only" }, db)) ∧
       (user.is_admin = true →
          ∀ e, (update_product pid body user db now).1 = Except.error e → e.status_code ≠ 403)) ∧
    (∀ (user : Identity) (pid : String) (db : DB),
       (user.is_admin = false →
          delete_product pid user db =
            (Except.error { status_code := 403, detail := "Admin only" }, db)) ∧
       (user.is_admin = true →
          ∀ e, (delete_product pid user db).1 = Except.error e → e.status_code ≠ 403)) ∧
    (∀ (user : Identity) (db : DB),
       (user.is_admin = false →
          admin_stats user db = Except.error { status_code := 403, detail := "Admin only" }) ∧
       (user.is_admin = true →
          ∀ e, admin_stats user db = Except.error e → e.status_code ≠ 403)) := by
  refine ⟨?_, ?_, ?_, ?_⟩
  · intro user body db
    refine ⟨fun hna => by simp [create_product, hna], fun ha e he => ?_⟩
    simp [create_product, ha] at he
  · intro user pid body db now
    refine ⟨fun hna => by simp [update_product, hna], fun ha e he => ?_⟩
    by_cases h0 : (updateOne db.products pid (update_product_set body now)).1 = 0
    · simp [update_product, ha, h0] at he
      simp [← he]
    · simp [update_product, ha, h0] at he
  · intro user pid db
    refine ⟨fun hna => by simp [delete_product, hna], fun ha e he => ?_⟩
    by_cases h0 : (deleteOne db.products pid).1 = 0
    · simp [delete_product, ha, h0] at he
      simp [← he]
    · simp [delete_product, ha, h0] at he
  · intro user db
    refine ⟨fun hna => by simp [admin_stats, hna], fun ha e he => ?_⟩
    simp [admin_stats, ha] at he

/-- Concrete users, payloads and states for the guard witnesses. -/
def userA : Identity := ⟨"Alice", "alice@x.com", "h", true, "idA"⟩

def userN : Identity := ⟨"Nora", "nora@x.com", "h", false, "idN"⟩

def userM : Identity := ⟨"Mallory", "m@x.com", "h", false, "idM"⟩

def prod0 : Product := ⟨"P", "B", "D", 1, Category.Mobiles, 4, [], [], 1⟩

def order0 : Order := ⟨"idN", [], 0, "N", "addr", "ph", PaymentMethod.COD, OrderStatus.placed⟩

def db0 : DB := ⟨[], [], [], 0⟩

def emptyUpdate : ProductUpdateBody := ⟨none, none, none, none, none, none, none, none, none⟩

def dt0 : DateTime := ⟨2025, 1, 2, 3, 4, 5, 0⟩

/-- Concrete instantiation of the C3 theorem: every gate rejects a
non-admin, and an admin-side failure (a 404 on a missing product)
is not a 403. -/
theorem admin_gates_witness :
    create_product prod0 userN db0 =
      (Except.error { status_code := 403, detail := "Admin only" }, db0) ∧
    update_product "p1" emptyUpdate userN db0 dt0 =
      (Except.error { status_code := 403, detail := "Admin only" }, db0) ∧
    delete_product "p1" userN db0 =
      (Except.error { status_code := 403, detail := "Admin only" }, db0) ∧
    admin_stats userN db0 = Except.error { status_code := 403, detail := "Admin only" } ∧
    ({ status_code := 404, detail := "Product not found" } : HTTPException).status_code ≠ 403 :=
  ⟨(admin_gates.1 userN prod0 db0).1 rfl,
   (admin_gates.2.1 userN "p1" emptyUpdate db0 dt0).1 rfl,
   (admin_gates.2.2.1 userN "p1" db0).1 rfl,
   (admin_gates.2.2.2 userN db0).1 rfl,
   (admin_gates.2.1 userA "p1" emptyUpdate db0 dt0).2 rfl
     { status_code := 404, detail := "Product not found" } rfl⟩

/-- C4: creating an order fails with 403 "Not allowed" exactly when the
caller is neither the target user nor an admin; the guard passes
otherwise; and any failure leaves the database (hence the order
collection) unchanged. -/
theorem create_order_guard (user : Identity) (body : OrderCreateBody) (db : DB) :
    (user.id ≠ body.user_id ∧ user.is_admin = false →
       create_order body user db =
         (Except.error { status_code := 403, detail := "Not allowed" }, db)) ∧
    ((user.id = body.user_id ∨ user.is_admin = true) →
       ∃ newId db2, create_order body user db = (Except.ok newId, db2)) ∧
    (∀ e, (create_order body user db).1 = Except.error e →
       (create_order body user db).2 = db) := by
  refine ⟨?_, ?_, ?_⟩
  · intro hcond
    simp [create_order, hcond]
  · intro hor
    have hcond : ¬ (user.id ≠ body.user_id ∧ user.is_admin = false) := by
      rintro ⟨hne, hna⟩
      rcases hor with h | h
      · exact hne h
      · rw [h] at hna; cases hna
    refine ⟨freshId db, (create_document_order db body).2, ?_⟩
    simp [create_order, hcond, create_document_order]
  · intro e he
    by_cases hcond : user.id ≠ body.user_id ∧ user.is_admin = false
    · simp [create_order, hcond]
    · simp [create_order, hcond] at he

/-- Concrete instantiation of the C4 theorem: a non-admin stranger is
rejected and the state is unchanged; the order owner passes the guard. -/
theorem create_order_guard_witness :
    create_order order0 userM db0 =
      (Except.error { status_code := 403, detail := "Not allowed" }, db0) ∧
    (∃ newId db2, create_order order0 userN db0 = (Except.ok newId, db2)) ∧
    (create_order order0 userM db0).2 = db0 :=
  ⟨(create_order_guard userM order0 db0).1 ⟨by decide, rfl⟩,
   (create_order_guard userN order0 db0).2.1 (Or.inl rfl),
   (create_order_guard userM order0 db0).2.2
     { status_code := 403, detail := "Not allowed" } rfl⟩

/-- Helper: decoding a token signed with the process key and algorithm
whose embedded expiry is not passed succeeds. -/
theorem decode_token_ok_of_unexpired (p : TokenPayload) (e now : Nat)
    (hexp : p.exp = some e) (hlt : ¬ e < now) :
    decode_token (Token.signed p JWT_SECRET JwtAlg.HS256) now = Except.ok p := by
  have hd : jwt_decode (Token.signed p JWT_SECRET JwtAlg.HS256) JWT_SECRET [JWT_ALGO] now =
      Except.ok p := by
    simp [jwt_decode, JWT_ALGO, hexp, hlt]
  simp [decode_token, hd]

/-- C5: for a correctly signed token whose embedded expiry is not
passed, authentication fails with a 401 outcome when no stored user
carries the token identifier; and a successful resolution always
returns the serialization of a currently-stored user document. -/
theorem authenticate_user_existence :
    (∀ (p : TokenPayload) (db : DB) (now e : Nat),
       p.exp = some e → ¬ e < now →
       (∀ u ∈ db.users, u._id ≠ p.id) →
       ∃ err, get_current_user (Token.signed p JWT_SECRET JwtAlg.HS256) db now =
                Except.error err ∧ err.status_code = 401) ∧
    (∀ (t : Token) (db : DB) (now : Nat) (ident : Identity),
       get_current_user t db now = Except.ok ident →
       ∃ u ∈ db.users, UserDoc.serialize u = ident) := by
  constructor
  · intro p db now e hexp hlt hno
    have hdec := decode_token_ok_of_unexpired p e now hexp hlt
    by_cases hid : p.id = ""
    · exact ⟨{ status_code := 401, detail := "Invalid token payload" },
        by simp [get_current_user, hdec, hid], rfl⟩
    · have hfind : db.users.find? (fun u => u._id == p.id) = none := by
        rw [List.find?_eq_none]
        intro u hu
        simpa using hno u hu
      exact ⟨{ status_code := 401, detail := "User not found" },
        by simp [get_current_user, hdec, hid, hfind], rfl⟩
  · intro t db now ident hok
    simp only [get_current_user] at hok
    cases hd : decode_token t now with
    | error e => rw [hd] at hok; cases hok
    | ok p =>
      rw [hd] at hok
      by_cases hid : p.id = ""
      · simp [hid] at hok
      · simp only [hid, if_neg, ite_false] at hok
        cases hf : db.users.find? (fun u => u._id == p.id) with
        | none => rw [hf] at hok; cases hok
        | some u =>
          rw [hf] at hok
          cases hok
          exact ⟨u, List.mem_of_find?_eq_some hf, rfl⟩

def userDoc1 : UserDoc := ⟨"id1", "Nora", "nora@x.com", "x", false⟩

def db1 : DB := ⟨[userDoc1], [], [], 1⟩

/-- Concrete instantiation of the C5 theorem: a signed unexpired token
for a deleted user is rejected with a 401; a token for a stored user
resolves to that user. -/
theorem authenticate_user_existence_witness :
    (∃ err,
       get_current_user
           (Token.signed ⟨"ghost", "g@x.com", false, some 100⟩ JWT_SECRET JwtAlg.HS256) db1 0 =
         Except.error err ∧ err.status_code = 401) ∧
    (∃ u ∈ db1.users, UserDoc.serialize u = userDoc1.serialize) :=
  ⟨authenticate_user_existence.1 ⟨"ghost", "g@x.com", false, some 100⟩ db1 0 100 rfl
      (by decide) (by decide),
   authenticate_user_existence.2
     (Token.signed ⟨"id1", "nora@x.com", false, some 100⟩ JWT_SECRET JwtAlg.HS256)
     db1 0 userDoc1.serialize rfl⟩

/-- Helper: the keys contributed by one optional field. -/
theorem mem_optEntry_keys {α : Type} (k k0 : String) (f : α → BVal) (o : Option α) :
    k ∈ (optEntry k0 f o).map Prod.fst ↔ k = k0 ∧ o.isSome := by
  cases o <;> simp [optEntry]

/-- C6: the sparse update mapping holds exactly the fields present and
non-null in the body plus `updated_at` set to the current time; every
present field appears with its supplied value; omitted fields never
appear; the all-empty body yields only `updated_at`. -/
theorem sparse_update_spec (b : ProductUpdateBody) (now : DateTime) :
    ("updated_at", BVal.dt now) ∈ update_product_set b now ∧
    (∀ k, k ∈ (update_product_set b now).map Prod.fst ↔
       (k = "updated_at" ∨
        (k = "name" ∧ b.name.isSome) ∨ (k = "brand" ∧ b.brand.isSome) ∨
        (k = "description" ∧ b.description.isSome) ∨ (k = "price" ∧ b.price.isSome) ∨
        (k = "category" ∧ b.category.isSome) ∨ (k = "rating" ∧ b.rating.isSome) ∨
        (k = "images" ∧ b.images.isSome) ∨ (k = "specs" ∧ b.specs.isSome) ∨
        (k = "stock" ∧ b.stock.isSome))) ∧
    (∀ s, b.name = some s → ("name", BVal.str s) ∈ update_product_set b now) ∧
    (∀ s, b.brand = some s → ("brand", BVal.str s) ∈ update_product_set b now) ∧
    (∀ s, b.description = some s → ("description", BVal.str s) ∈ update_product_set b now) ∧
    (∀ n, b.price = some n → ("price", BVal.int n) ∈ update_product_set b now) ∧
    (∀ s, b.category = some s → ("category", BVal.str s) ∈ update_product_set b now) ∧
    (∀ n, b.rating = some n → ("rating", BVal.int n) ∈ update_product_set b now) ∧
    (∀ l, b.images = some l → ("images", BVal.strList l) ∈ update_product_set b now) ∧
    (∀ l, b.specs = some l → ("specs", BVal.dict l) ∈ update_product_set b now) ∧
    (∀ n, b.stock = some n → ("stock", BVal.int n) ∈ update_product_set b now) ∧
    update_product_set ⟨none, none, none, none, none, none, none, none, none⟩ now =
      [("updated_at", BVal.dt now)] := by
  refine ⟨?_, ?_, ?_, ?_, ?_, ?_, ?_, ?_, ?_, ?_, ?_, rfl⟩
  · simp [update_product_set]
  · intro k
    simp only [update_product_set, ProductUpdateBody.dumpExcludeNone, List.map_append,
      List.mem_append, mem_optEntry_keys, List.map_cons, List.map_nil, List.mem_singleton]
    itauto
  all_goals
    intro v hv
    simp only [update_product_set, ProductUpdateBody.dumpExcludeNone, optEntry, hv,
      List.mem_append, List.mem_singleton]
    simp

def updBody0 : ProductUpdateBody := ⟨none, none, none, some 100, none, none, none, none, none⟩

/-- Concrete instantiation of the C6 theorem: `{price: 100}` maps to
exactly `price` and `updated_at`; the empty body maps to `updated_at`
alone. -/
theorem sparse_update_spec_witness :
    ("updated_at", BVal.dt dt0) ∈ update_product_set updBody0 dt0 ∧
    ("price", BVal.int 100) ∈ update_product_set updBody0 dt0 ∧
    "name" ∉ (update_product_set updBody0 dt0).map Prod.fst ∧
    update_product_set ⟨none, none, none, none, none, none, none, none, none⟩ dt0 =
      [("updated_at", BVal.dt dt0)] := by
  obtain ⟨h1, h2, _, _, _, hprice, _, _, _, _, _, hempty⟩ := sparse_update_spec updBody0 dt0
  exact ⟨h1, hprice 100 rfl, by decide, hempty⟩

/-- Helper: the datetime-conversion pass keeps keys and rewrites values
pointwise. -/
theorem dictGet_mapVal (l : Dict) (k : String) :
    dictGet (l.map (fun p => (p.1, serializeVal p.2))) k =
      (dictGet l k).map serializeVal := by
  induction l with
  | nil => rfl
  | cons hd tl ih =>
    by_cases h : hd.1 = k
    · simp [dictGet, h]
    · simp [dictGet, h, ih]

/-- Helper: after deleting a key it is gone. -/
theorem dictGet_del_self (l : Dict) (k : String) :
    dictGet (dictDel l k) k = none := by
  induction l with
  | nil => rfl
  | cons hd tl ih =>
    by_cases h : hd.1 = k
    · simp [dictDel, h, ih]
    · simp [dictDel, dictGet, h, ih]

/-- Helper: deleting one key leaves every other key alone. -/
theorem dictGet_del_ne (l : Dict) (k k1 : String) (hk : k ≠ k1) :
    dictGet (dictDel l k1) k = dictGet l k := by
  induction l with
  | nil => rfl
  | cons hd tl ih =>
    by_cases h1 : hd.1 = k1
    · have h : ¬ hd.1 = k := by
        rw [h1]
        exact fun hh => hk hh.symm
      simp only [dictDel, if_pos h1, dictGet, if_neg h]
      exact ih
    · by_cases h : hd.1 = k
      · simp only [dictDel, if_neg h1, dictGet, if_pos h]
      · simp only [dictDel, if_neg h1, dictGet, if_neg h]
        exact ih

/-- Helper: deletion distributes over concatenation. -/
theorem dictDel_append (l m : Dict) (k : String) :
    dictDel (l ++ m) k = dictDel l k ++ dictDel m k := by
  induction l with
  | nil => rfl
  | cons hd tl ih =>
    by_cases h : hd.1 = k
    · simp [dictDel, h, ih]
    · simp [dictDel, h, ih]

/-- Helper: lookup skips a prefix that lacks the key. -/
theorem dictGet_append_right (l m : Dict) (k : String) (h : dictGet l k = none) :
    dictGet (l ++ m) k = dictGet m k := by
  induction l with
  | nil => rfl
  | cons hd tl ih =>
    by_cases hh : hd.1 = k
    · simp [dictGet, hh] at h
    · rw [List.cons_append]
      simp only [dictGet, if_neg hh] at h ⊢
      exact ih h

/-- Helper: lookup found in the prefix survives appending. -/
theorem dictGet_append_left (l m : Dict) (k : String) (v : BVal)
    (h : dictGet l k = some v) : dictGet (l ++ m) k = some v := by
  induction l with
  | nil => cases h
  | cons hd tl ih =>
    by_cases hh : hd.1 = k
    · rw [List.cons_append]
      simp only [dictGet, if_pos hh] at h ⊢
      exact h
    · rw [List.cons_append]
      simp only [dictGet, if_neg hh] at h ⊢
      exact ih h

/-- Helper: a key that lookup misses is not held. -/
theorem dictHasKey_eq_false (l : Dict) (k : String) (h : dictGet l k = none) :
    dictHasKey l k = false := by
  induction l with
  | nil => rfl
  | cons hd tl ih =>
    by_cases hh : hd.1 = k
    · simp [dictGet, hh] at h
    · simp only [dictGet, if_neg hh] at h
      simp [dictHasKey, hh, ih h]

/-- C7: `serialize_doc` maps an absent document to itself; on a stored
document with an ObjectId `_id` and no pre-existing `id` field it
exposes the identifier as a string `id` field, drops `_id`, and maps
every other field pointwise: datetimes become their isoformat strings
and everything else is unchanged. -/
theorem serialize_doc_spec :
    serialize_doc none = none ∧
    ∀ (d : Dict) (s : String),
      dictGet d "_id" = some (BVal.oid s) →
      dictGet d "id" = none →
      ∃ d2, serialize_doc (some d) = some d2 ∧
        dictGet d2 "id" = some (BVal.str s) ∧
        dictGet d2 "_id" = none ∧
        ∀ k, k ≠ "_id" → k ≠ "id" → dictGet d2 k = (dictGet d k).map serializeVal := by
  refine ⟨rfl, ?_⟩
  intro d s hid hnoid
  have hne : d ≠ [] := by
    intro h
    rw [h] at hid
    cases hid
  have hset : dictSet d "id" (BVal.str s) = d ++ [("id", BVal.str s)] := by
    unfold dictSet
    rw [dictHasKey_eq_false d "id" hnoid]
    simp
  have hdel : dictDel (d ++ [("id", BVal.str s)]) "_id" =
      dictDel d "_id" ++ [("id", BVal.str s)] := by
    rw [dictDel_append]
    rfl
  refine ⟨(dictDel d "_id" ++ [("id", BVal.str s)]).map (fun p => (p.1, serializeVal p.2)),
    ?_, ?_, ?_, ?_⟩
  · simp only [serialize_doc, hid, hset, hdel, if_neg hne]
  · rw [dictGet_mapVal]
    have h1 : dictGet (dictDel d "_id") "id" = none := by
      rw [dictGet_del_ne d "id" "_id" (by decide)]
      exact hnoid
    rw [dictGet_append_right _ _ _ h1]
    rfl
  · rw [dictGet_mapVal]
    have h1 : dictGet (dictDel d "_id") "_id" = none := dictGet_del_self d "_id"
    rw [dictGet_append_right _ _ _ h1]
    rfl
  · intro k hk1 hk2
    rw [dictGet_mapVal]
    have h1 : dictGet (dictDel d "_id") k = dictGet d k := dictGet_del_ne d k "_id" hk1
    cases hv : dictGet d k with
    | none =>
      rw [dictGet_append_right _ _ _ (h1.trans hv)]
      simp only [dictGet]
      rw [if_neg (fun hh => hk2 hh.symm)]
    | some v =>
      rw [dictGet_append_left _ _ _ v (h1.trans hv)]

def doc0 : Dict :=
  [("_id", BVal.oid "abc123"), ("name", BVal.str "Pixel"),
   ("created_at", BVal.dt ⟨2024, 5, 6, 7, 8, 9, 0⟩)]

/-- Concrete instantiation of the C7 theorem. -/
theorem serialize_doc_spec_witness :
    serialize_doc none = none ∧
    ∃ d2, serialize_doc (some doc0) = some d2 ∧
      dictGet d2 "id" = some (BVal.str "abc123") ∧
      dictGet d2 "_id" = none ∧
      ∀ k, k ≠ "_id" → k ≠ "id" → dictGet d2 k = (dictGet doc0 k).map serializeVal :=
  ⟨serialize_doc_spec.1, serialize_doc_spec.2 doc0 "abc123" rfl rfl⟩

/-- Helper: truncation lands below 2^32. -/
theorem w32_lt (n : Nat) : w32 n < 4294967296 :=
  Nat.mod_lt _ (by decide)

/-- All eight state words fit in 32 bits. -/
def Sha8.Bounded (s : Sha8) : Prop :=
  s.h0 < 4294967296 ∧ s.h1 < 4294967296 ∧ s.h2 < 4294967296 ∧ s.h3 < 4294967296 ∧
  s.h4 < 4294967296 ∧ s.h5 < 4294967296 ∧ s.h6 < 4294967296 ∧ s.h7 < 4294967296

theorem sha256Finalize_bounded (s : Sha8) (r : Regs) : (sha256Finalize s r).Bounded :=
  ⟨w32_lt _, w32_lt _, w32_lt _, w32_lt _, w32_lt _, w32_lt _, w32_lt _, w32_lt _⟩

theorem processChunk_bounded (s : Sha8) (c : List Nat) : (processChunk s c).Bounded := by
  unfold processChunk
  exact sha256Finalize_bounded _ _

theorem foldl_processChunk_bounded (cs : List (List Nat)) (s : Sha8) (hb : s.Bounded) :
    (cs.foldl processChunk s).Bounded := by
  induction cs generalizing s with
  | nil => exact hb
  | cons c cs ih => exact ih _ (processChunk_bounded s c)

theorem sha256Words_bounded (msg : List Nat) : (sha256Words msg).Bounded := by
  unfold sha256Words
  exact foldl_processChunk_bounded _ _ (by constructor <;> decide)

/-- The digest packed into eight 32-bit residues: a member of a finite
type. -/
def digestFin (p : String) :
    Fin 4294967296 × Fin 4294967296 × Fin 4294967296 × Fin 4294967296 ×
      Fin 4294967296 × Fin 4294967296 × Fin 4294967296 × Fin 4294967296 :=
  have hb := sha256Words_bounded (strBytes p)
  (⟨(sha256Words (strBytes p)).h0, hb.1⟩, ⟨(sha256Words (strBytes p)).h1, hb.2.1⟩,
   ⟨(sha256Words (strBytes p)).h2, hb.2.2.1⟩, ⟨(sha256Words (strBytes p)).h3, hb.2.2.2.1⟩,
   ⟨(sha256Words (strBytes p)).h4, hb.2.2.2.2.1⟩, ⟨(sha256Words (strBytes p)).h5, hb.2.2.2.2.2.1⟩,
   ⟨(sha256Words (strBytes p)).h6, hb.2.2.2.2.2.2.1⟩, ⟨(sha256Words (strBytes p)).h7, hb.2.2.2.2.2.2.2⟩)

theorem Sha8.ext_fields (s t : Sha8) (h0 : s.h0 = t.h0) (h1 : s.h1 = t.h1)
    (h2 : s.h2 = t.h2) (h3 : s.h3 = t.h3) (h4 : s.h4 = t.h4) (h5 : s.h5 = t.h5)
    (h6 : s.h6 = t.h6) (h7 : s.h7 = t.h7) : s = t := by
  cases s
  cases t
  simp_all

/-- A string of `n` letters a; injective in `n`. -/
def aRun (n : Nat) : String :=
  String.mk (List.replicate n 'a')

theorem aRun_length (n : Nat) : (aRun n).length = n := by
  simp [aRun, String.length]

/-- C8 counterexample: `hash_password` is not injective. Infinitely many
plaintexts map into the finitely many 256-bit digests, so two distinct
plaintexts share a digest; no concrete collision is exhibited (none is
known for SHA-256), the existence is a pigeonhole fact. -/
theorem hash_password_not_injective :
    ¬ (∀ p1 p2 : String, p1 ≠ p2 → hash_password p1 ≠ hash_password p2) := by
  intro hinj
  obtain ⟨n1, n2, hne, heq⟩ :=
    Finite.exists_ne_map_eq_of_infinite (fun n : Nat => digestFin (aRun n))
  have hlen : aRun n1 ≠ aRun n2 := by
    intro hs
    apply hne
    have := congrArg String.length hs
    simpa [aRun_length] using this
  have hsha : sha256Words (strBytes (aRun n1)) = sha256Words (strBytes (aRun n2)) := by
    apply Sha8.ext_fields
    · exact congrArg (fun q => q.1.val) heq
    · exact congrArg (fun q => q.2.1.val) heq
    · exact congrArg (fun q => q.2.2.1.val) heq
    · exact congrArg (fun q => q.2.2.2.1.val) heq
    · exact congrArg (fun q => q.2.2.2.2.1.val) heq
    · exact congrArg (fun q => q.2.2.2.2.2.1.val) heq
    · exact congrArg (fun q => q.2.2.2.2.2.2.1.val) heq
    · exact congrArg (fun q => q.2.2.2.2.2.2.2.val) heq
  have : hash_password (aRun n1) = hash_password (aRun n2) := by
    unfold hash_password
    rw [hsha]
  exact hinj (aRun n1) (aRun n2) hlen this

theorem wordHex_length (w : Nat) : (wordHex w).length = 8 := by
  simp [wordHex, String.length]

/-- Helper: the digest is always a 64-character string. -/
theorem hash_password_length (p : String) : (hash_password p).length = 64 := by
  simp [hash_password, sha8Hex, String.length_append, wordHex_length]

/-- C8 (amended): `hash_password` is a pure deterministic function of
the plaintext producing a fixed-width 64-character hex digest; it is not
injective in principle (see the counterexample), though collision-free
in practice. -/
theorem hash_password_deterministic (p : String) :
    hash_password p = hash_password p ∧ (hash_password p).length = 64 :=
  ⟨rfl, hash_password_length p⟩

/-- C9: when the login email matches a stored user, a wrong password is
rejected with 401 "Invalid credentials" and no token is issued (the
failing result carries no response at all); with the correct password
login returns a token that authenticate resolves, while the token is
fresh and the user still stored, to an identity with the same email. -/
theorem login_spec :
    (∀ (body : LoginBody) (db : DB) (now : Nat) (u : UserDoc),
       db.users.find? (fun x => x.email == body.email) = some u →
       u.password_hash ≠ hash_password body.password →
       login body db now =
         Except.error { status_code := 401, detail := "Invalid credentials" }) ∧
    (∀ (body : LoginBody) (db : DB) (now tAuth : Nat) (u : UserDoc),
       db.users.find? (fun x => x.email == body.email) = some u →
       u.password_hash = hash_password body.password →
       u._id ≠ "" →
       db.users.find? (fun x => x._id == u._id) = some u →
       tAuth < now + 7 * 24 * 60 * 60 →
       ∃ resp, login body db now = Except.ok resp ∧
         ∃ ident, get_current_user resp.token db tAuth = Except.ok ident ∧
           ident.email = body.email) := by
  constructor
  · intro body db now u hfind hne
    simp [login, hfind, hne]
  · intro body db now tAuth u hfind hpw hid hfid hlt
    have hemail : u.email = body.email := by
      have := List.find?_some hfind
      simpa using this
    refine ⟨⟨create_token ⟨u._id, u.email, u.is_admin⟩ now, u._id, u.name, u.email, u.is_admin⟩,
      ?_, ?_⟩
    · simp [login, hfind, hpw, UserDoc.serialize]
    · refine ⟨u.serialize, ?_, ?_⟩
      · have hdec : decode_token (create_token ⟨u._id, u.email, u.is_admin⟩ now) tAuth =
            Except.ok ⟨u._id, u.email, u.is_admin, some (now + 7 * 24 * 60 * 60)⟩ := by
          apply decode_token_ok_of_unexpired
          · rfl
          · omega
        simp [get_current_user, hdec, hid, hfid]
      · simp [UserDoc.serialize, hemail]

def userDoc9bad : UserDoc := ⟨"id9", "Lena", "a@b.com", "x", false⟩

def db9bad : DB := ⟨[userDoc9bad], [], [], 1⟩

def userDoc9 : UserDoc := ⟨"id9", "Lena", "a@b.com", hash_password "pw", false⟩

def db9 : DB := ⟨[userDoc9], [], [], 1⟩

/-- Concrete instantiation of the C9 theorem: a stored hash that cannot
match (wrong width) is rejected; the correct password logs in and the
returned token resolves to the stored user. -/
theorem login_spec_witness :
    login ⟨"a@b.com", "pw"⟩ db9bad 0 =
      Except.error { status_code := 401, detail := "Invalid credentials" } ∧
    (∃ resp, login ⟨"a@b.com", "pw"⟩ db9 0 = Except.ok resp ∧
       ∃ ident, get_current_user resp.token db9 0 = Except.ok ident ∧
         ident.email = "a@b.com") :=
  ⟨login_spec.1 ⟨"a@b.com", "pw"⟩ db9bad 0 userDoc9bad rfl
     (fun h => by
       have hl := congrArg String.length h
       rw [hash_password_length] at hl
       exact absurd hl (by decide)),
   login_spec.2 ⟨"a@b.com", "pw"⟩ db9 0 0 userDoc9 rfl rfl (by decide) rfl (by decide)⟩

/-- C10: a signup success stores exactly one new user record, carrying
the hashed password and is_admin false, and issues a token and response
whose admin flag is false; the statement quantifies over every request
body (which holds only name, email and password), so no body field can
influence the flag. -/
theorem signup_admin_flag (body : SignupBody) (db : DB) (now : Nat)
    (resp : AuthResponse) (db2 : DB)
    (h : signup body db now = (Except.ok resp, db2)) :
    (∃ u : UserDoc, db2.users = db.users ++ [u] ∧ u.is_admin = false ∧
       u.name = body.name ∧ u.email = body.email ∧
       u.password_hash = hash_password body.password) ∧
    (∃ p, resp.token = Token.signed p JWT_SECRET JwtAlg.HS256 ∧ p.is_admin = false) ∧
    resp.user_is_admin = false := by
  by_cases hex : (db.users.find? (fun u => u.email == body.email)).isSome = true
  · simp [signup, hex] at h
  · have hex2 : (db.users.find? (fun u => u.email == body.email)).isSome = false := by
      simpa using hex
    simp only [signup, hex2, Bool.false_eq_true, if_false, create_document_user] at h
    injection h with ha hb
    injection ha with hresp
    subst hresp
    subst hb
    exact ⟨⟨⟨freshId db, body.name, body.email, hash_password body.password, false⟩,
      rfl, rfl, rfl, rfl, rfl⟩,
      ⟨⟨freshId db, body.email, false, some (now + 7 * 24 * 60 * 60)⟩, rfl, rfl⟩, rfl⟩

/-- Concrete instantiation of the C10 theorem for a concrete signup. -/
theorem signup_admin_flag_witness :
    (∃ u : UserDoc,
       (⟨[⟨"oid0", "Nora", "a@b.com", hash_password "pw", false⟩], [], [], 1⟩ : DB).users =
         db0.users ++ [u] ∧ u.is_admin = false ∧ u.name = "Nora" ∧ u.email = "a@b.com" ∧
         u.password_hash = hash_password "pw") ∧
    (∃ p, (⟨create_token ⟨"oid0", "a@b.com", false⟩ 0, "oid0", "Nora", "a@b.com", false⟩ :
        AuthResponse).token = Token.signed p JWT_SECRET JwtAlg.HS256 ∧ p.is_admin = false) ∧
    (⟨create_token ⟨"oid0", "a@b.com", false⟩ 0, "oid0", "Nora", "a@b.com", false⟩ :
        AuthResponse).user_is_admin = false :=
  signup_admin_flag ⟨"Nora", "a@b.com", "pw"⟩ db0 0 _ _ rfl
